import Mathlib

/-!
Shallow embedding of `src/py_uds_lib.py` (class `Services`), the UDS
request-string encoder, together with proofs about the request builders.

Python integers are modelled as `Nat` (the claims under study concern
non-negative inputs).  Python formatting is modelled exactly:
  * `f"{n:02X}"`  → `fmt02X n`   (uppercase hex, zero-padded to width 2,
    wider when the value needs more digits — Python never truncates);
  * `f"{n}"`      → `decRepr n`  (plain decimal, no padding) — several
    call sites in the source omit the `:02X` spec and fall back to this;
  * `v & 0xFF`    → `v % 256`, `v & 0xF` → `v % 16`,
    `(v & 0xFF00) >> 8` → `v / 256 % 256`, `(v >> (8*i)) & 0xFF` →
    `v / 2 ^ (8*i) % 256` (the usual Nat translation of bit masking).
Fallible code paths (Python exceptions) are modelled with `Option`:
`none` means the call raises instead of returning a string.
-/

namespace PyUds

/-- Uppercase hexadecimal digit for `n < 16` (0-9, A-F), as Python `X`
formatting produces. -/
def hexDigit (n : Nat) : Char :=
  if n < 10 then Char.ofNat (48 + n) else Char.ofNat (55 + n)

/-- Fuel-driven big-endian hex digits of `n` (empty on `n = 0`); the fuel
argument makes the definition structurally recursive so that it reduces
inside the kernel. -/
def hexCharsAux : Nat → Nat → List Char
  | 0, _ => []
  | f + 1, n => if n = 0 then [] else hexCharsAux f (n / 16) ++ [hexDigit (n % 16)]

/-- Python `f"{n:02X}"` for a non-negative `n`: uppercase hexadecimal,
zero-padded on the left to at least two digits, never truncated. -/
def fmt02X (n : Nat) : String :=
  let cs := if n = 0 then [Char.ofNat 48] else hexCharsAux n n
  if cs.length < 2 then String.mk (Char.ofNat 48 :: cs) else String.mk cs

/-- Fuel-driven decimal digits of `n` (empty on `n = 0`). -/
def decCharsAux : Nat → Nat → List Char
  | 0, _ => []
  | f + 1, n => if n = 0 then [] else decCharsAux f (n / 10) ++ [Char.ofNat (48 + n % 10)]

/-- Python `f"{n}"` for a non-negative `n`: plain decimal digits.  This is
what the source produces at the call sites that forgot the `:02X` format
spec (`{value & 0xFF}` and friends). -/
def decRepr (n : Nat) : String :=
  if n = 0 then "0" else String.mk (decCharsAux n n)

/-- Translation of the ubiquitous source idiom
`" ".join([f"{value & 0xFF:02X}" for value in record])`. -/
def renderList (record : List Nat) : String :=
  String.intercalate " " (record.map fun value => fmt02X (value % 256))

/-- Translation of the source idiom
`[(v >> (i * 8)) & 0xFF for i in reversed(range(k))]` used by
`read_memory_by_address` and `dynamically_define_data_identifier`:
the `k` big-endian bytes of `v` (the value is silently truncated mod
`2 ^ (8 * k)`). -/
def pyWidthBytes (k v : Nat) : List Nat :=
  (List.range k).reverse.map fun i => v / 2 ^ (8 * i) % 256

/-- Specification-side fixed-width big-endian byte encoder: exactly `k`
bytes, most significant first, value truncated mod `2 ^ (8 * k)`.  Also
models Python `int.to_bytes(k)` on values that fit. -/
def toBytesBE : Nat → Nat → List Nat
  | 0, _ => []
  | k + 1, v => toBytesBE k (v / 256) ++ [v % 256]

/-- Specification-side decoder for big-endian byte lists. -/
def fromBytesBE (l : List Nat) : Nat :=
  l.foldl (fun acc b => acc * 256 + b) 0

/-- Fuel-driven bit length; `bitLenAux n n` computes Python
`n.bit_length()`. -/
def bitLenAux : Nat → Nat → Nat
  | 0, _ => 0
  | f + 1, n => if n = 0 then 0 else bitLenAux f (n / 2) + 1

/-- Python `int.bit_length()` for a non-negative integer. -/
def bitLength (n : Nat) : Nat := bitLenAux n n

/-- Python `round(b / 8)` for a natural `b` (the quotient is an exact
multiple of 1/8, so banker's rounding applies: halves round to the even
quotient). -/
def roundHalfEvenDiv8 (b : Nat) : Nat :=
  if b % 8 < 4 then b / 8
  else if 4 < b % 8 then b / 8 + 1
  else if b / 8 % 2 = 0 then b / 8 else b / 8 + 1

/-- Service identifiers used by the claims (class `Sid` of the source). -/
def Sid.DSC : Nat := 0x10
def Sid.CC : Nat := 0x28
def Sid.RDBI : Nat := 0x22
def Sid.RMBA : Nat := 0x23
def Sid.RDBPI : Nat := 0x2A
def Sid.DDDI : Nat := 0x2C
def Sid.RC : Nat := 0x31
def Sid.TD : Nat := 0x36
def Sid.RTE : Nat := 0x37
def Sid.RFT : Nat := 0x38

/-- `Services.convert_int_to_str_of_bytes`.  The source computes
`number_of_bytes = round(integer_value.bit_length() / 8)` and then calls
`integer_value.to_bytes(number_of_bytes)`; `to_bytes` raises
`OverflowError` whenever the value does not fit in that many bytes, which
we model as `none`. -/
def convert_int_to_str_of_bytes (integer_value : Nat) : Option String :=
  if integer_value < 2 ^ (8 * roundHalfEvenDiv8 (bitLength integer_value)) then
    some (String.intercalate " "
      ((toBytesBE (roundHalfEvenDiv8 (bitLength integer_value)) integer_value).map fmt02X))
  else none

/-- `Services.diagnostic_session_control`: note the session type is
formatted without the `& 0xFF` mask. -/
def diagnostic_session_control (diagnostic_session_type : Nat) : String :=
  fmt02X Sid.DSC ++ " " ++ fmt02X diagnostic_session_type

/-- `Services.communication_control`: the optional node identification
number is split high byte (`:02X`) then low byte; the low byte is
formatted `{node_identification_number & 0xFF}` — unpadded decimal. -/
def communication_control (control_type communication_type : Nat)
    (node_identification_number : Option Nat) : String :=
  let request := fmt02X Sid.CC ++ " " ++ fmt02X (control_type % 256) ++ " "
    ++ fmt02X (communication_type % 256)
  match node_identification_number with
  | none => request
  | some n => request ++ " " ++ fmt02X (n / 256 % 256) ++ " " ++ decRepr (n % 256)

/-- `Services.read_data_by_identifier`: each identifier is rendered high
byte (`:02X`) then low byte, the low byte being `{value & 0xFF}` —
unpadded decimal. -/
def read_data_by_identifier (data_identifier : List Nat) : String :=
  fmt02X Sid.RDBI ++ " " ++ String.intercalate " "
    (data_identifier.map fun value => fmt02X (value / 256 % 256) ++ " " ++ decRepr (value % 256))

/-- `Services.read_memory_by_address`: the format byte is rendered
`{address_and_length_format_identifier & 0xFF}` — unpadded decimal — and
the address and size fields are the `pyWidthBytes` of the nibble-derived
widths. -/
def read_memory_by_address
    (address_and_length_format_identifier memory_address memory_size : Nat) : String :=
  fmt02X Sid.RMBA ++ " " ++ decRepr (address_and_length_format_identifier % 256) ++ " "
    ++ String.intercalate " "
      ((pyWidthBytes (address_and_length_format_identifier % 16) memory_address).map fmt02X)
    ++ " "
    ++ String.intercalate " "
      ((pyWidthBytes (address_and_length_format_identifier / 16 % 16) memory_size).map fmt02X)

/-- `Services.read_data_by_periodic_identifier`: the transmission mode is
formatted without the `& 0xFF` mask. -/
def read_data_by_periodic_identifier (transmission_mode : Nat)
    (periodic_data_identifier : List Nat) : String :=
  fmt02X Sid.RDBPI ++ " " ++ fmt02X transmission_mode ++ " "
    ++ renderList periodic_data_identifier

/-- The `supporting_params : Union[list[list[int]], int]` argument of
`Services.dynamically_define_data_identifier`. -/
inductive SupportingParams where
  | records : List (Nat × Nat × Nat × Nat) → SupportingParams
  | single : Nat → SupportingParams

/-- One definition-type-1 record: `(targetDID, sourceDID, position, size)`
rendered as in the source's type-1 loop body. -/
def dddiType1Record (p : Nat × Nat × Nat × Nat) : String :=
  fmt02X (p.1 / 256 % 256) ++ " " ++ fmt02X (p.1 % 256) ++ " "
    ++ fmt02X (p.2.1 / 256 % 256) ++ " " ++ fmt02X (p.2.1 % 256) ++ " "
    ++ fmt02X (p.2.2.1 % 256) ++ " " ++ fmt02X (p.2.2.2 % 256)

/-- `Services.dynamically_define_data_identifier`.  The result pairs the
returned request with the list of messages printed to the console.
Failure modes modelled as `none` (a raised `TypeError`):
  * type 1 with an `int` argument iterates over an `int`;
  * type 2 with a non-empty list always fails: the source rebinds
    `address_and_length_format_identifier` to the *string*
    `f"{params[1] & 0xFF:02X}"` and then evaluates
    `address_and_length_format_identifier & 0xF` on that string;
  * type 3 with a list argument evaluates `supporting_params >> 8` on a
    list.
An unrecognized definition type prints a warning and returns
SID + discriminant only. -/
def dynamically_define_data_identifier (definition_type : Nat)
    (supporting_params : SupportingParams) : Option (String × List String) :=
  let request := fmt02X Sid.DDDI ++ " " ++ fmt02X definition_type
  if definition_type = 1 then
    match supporting_params with
    | .records l =>
      some (l.foldl (fun req p => req ++ " " ++ dddiType1Record p) request, [])
    | .single _ => none
  else if definition_type = 2 then
    match supporting_params with
    | .records l => if l = [] then some (request, []) else none
    | .single _ => none
  else if definition_type = 3 then
    match supporting_params with
    | .records _ => none
    | .single s =>
      some (request ++ " " ++ fmt02X (s / 256 % 256) ++ " " ++ fmt02X (s % 256), [])
  else
    some (request,
      ["invalid definition_type " ++ decRepr definition_type
        ++ ". possible values -> 0 to 3. request sent without supporting_params"])

/-- `Services.routine_control`: both the control type and the routine
identifier go through `convert_int_to_str_of_bytes`, which can raise; an
omitted option record contributes the empty string to the final f-string
(leaving a trailing space). -/
def routine_control (routine_control_type routine_identifier : Nat)
    (routine_control_option_record : Option (List Nat)) : Option String :=
  (convert_int_to_str_of_bytes routine_control_type).bind fun ts =>
  (convert_int_to_str_of_bytes routine_identifier).bind fun rs =>
  some (fmt02X Sid.RC ++ " " ++ ts ++ " " ++ rs ++ " "
    ++ (match routine_control_option_record with
        | none => ""
        | some l => renderList l))

/-- `Services.request_transfer_exit`: the zero-argument form returns the
RTE service identifier alone; the branch with a record emits
`self.sid.TD` — the TransferData identifier, 0x36 — as its SID. -/
def request_transfer_exit (transfer_request_parameter_record : Option (List Nat)) : String :=
  match transfer_request_parameter_record with
  | none => fmt02X Sid.RTE
  | some l => fmt02X Sid.TD ++ " " ++ renderList l

/-- `Services.request_file_transfer`.  The body unconditionally evaluates
`data_format_identifier & 0xFF`, `file_size_parameter_length & 0xFF` and
joins over `file_size_uncompressed` / `file_size_compressed`, so omitting
any of the four optional parameters raises `TypeError` (modelled `none`);
the two `convert_int_to_str_of_bytes` calls can raise `OverflowError`. -/
def request_file_transfer (mode_of_operation file_path_and_name_length : Nat)
    (file_path_and_name : List Nat) (data_format_identifier : Option Nat)
    (file_size_parameter_length : Option Nat)
    (file_size_uncompressed file_size_compressed : Option (List Nat)) : Option String :=
  (convert_int_to_str_of_bytes mode_of_operation).bind fun ms =>
  (convert_int_to_str_of_bytes file_path_and_name_length).bind fun ls =>
  (data_format_identifier.map fun d => fmt02X (d % 256)).bind fun ds =>
  (file_size_parameter_length.map fun d => fmt02X (d % 256)).bind fun ps =>
  (file_size_uncompressed.map renderList).bind fun us =>
  (file_size_compressed.map renderList).bind fun cs =>
  some (fmt02X Sid.RFT ++ " " ++ ms ++ " " ++ ls ++ " "
    ++ renderList file_path_and_name ++ " " ++ ds ++ " " ++ ps ++ " " ++ us ++ " " ++ cs)

/-! Generic lemmas about the byte encoders and bit lengths. -/

theorem toBytesBE_length (k : Nat) : ∀ v, (toBytesBE k v).length = k := by
  induction k with
  | zero => intro v; rfl
  | succ k ih => intro v; simp [toBytesBE, ih]

theorem toBytesBE_cons (k : Nat) : ∀ v, toBytesBE (k + 1) v = v / 2 ^ (8 * k) % 256 :: toBytesBE k v := by
  induction k with
  | zero => intro v; simp [toBytesBE]
  | succ k ih =>
    intro v
    show toBytesBE (k + 1) (v / 256) ++ [v % 256] = _
    rw [ih]
    have h8 : v / 256 / 2 ^ (8 * k) = v / 2 ^ (8 * (k + 1)) := by
      rw [Nat.div_div_eq_div_mul]
      congr 1
      rw [show 8 * (k + 1) = 8 * k + 8 from by ring, pow_add]
      norm_num [mul_comm]
    rw [List.cons_append, h8]
    rfl

theorem pyWidthBytes_eq_toBytesBE (k v : Nat) : pyWidthBytes k v = toBytesBE k v := by
  induction k with
  | zero => rfl
  | succ k ih =>
    rw [toBytesBE_cons]
    unfold pyWidthBytes
    rw [List.range_succ, List.reverse_append, List.reverse_singleton]
    simp only [List.singleton_append, List.map_cons]
    rw [show ((List.range k).reverse.map fun i => v / 2 ^ (8 * i) % 256) = pyWidthBytes k v
      from rfl, ih]

theorem fromBytesBE_append (l : List Nat) (b : Nat) :
    fromBytesBE (l ++ [b]) = fromBytesBE l * 256 + b := by
  simp [fromBytesBE, List.foldl_append]

theorem mod_mul_decomp (v m : Nat) (hm : 0 < m) :
    v / 256 % m * 256 + v % 256 = v % (256 * m) := by
  have hd : m * (v / 256 / m) + v / 256 % m = v / 256 := Nat.div_add_mod (v / 256) m
  have h1 : v = 256 * m * (v / 256 / m) + (v / 256 % m * 256 + v % 256) := by
    calc v = 256 * (v / 256) + v % 256 := (Nat.div_add_mod v 256).symm
    _ = 256 * (m * (v / 256 / m) + v / 256 % m) + v % 256 := by rw [hd]
    _ = 256 * m * (v / 256 / m) + (v / 256 % m * 256 + v % 256) := by ring
  have h2 : v / 256 % m * 256 + v % 256 < 256 * m := by
    have ha : v / 256 % m < m := Nat.mod_lt _ hm
    have hb : v % 256 < 256 := Nat.mod_lt _ (by norm_num)
    nlinarith
  conv_rhs => rw [h1]
  rw [Nat.mul_add_mod]
  exact (Nat.mod_eq_of_lt h2).symm

theorem fromBytesBE_toBytesBE (k : Nat) : ∀ v, fromBytesBE (toBytesBE k v) = v % 2 ^ (8 * k) := by
  induction k with
  | zero => intro v; simp [toBytesBE, fromBytesBE, Nat.mod_one]
  | succ k ih =>
    intro v
    show fromBytesBE (toBytesBE k (v / 256) ++ [v % 256]) = _
    rw [fromBytesBE_append, ih]
    have h8 : (2 : Nat) ^ (8 * (k + 1)) = 256 * 2 ^ (8 * k) := by
      rw [show 8 * (k + 1) = 8 + 8 * k from by ring, pow_add]
      norm_num
    rw [h8]
    exact mod_mul_decomp v (2 ^ (8 * k)) (pow_pos (by norm_num) _)

theorem bitLenAux_le : ∀ f n m, n ≤ f → n < 2 ^ m → bitLenAux f n ≤ m := by
  intro f
  induction f with
  | zero =>
    intro n m hn _
    have h0 : n = 0 := Nat.le_zero.mp hn
    subst h0
    simp [bitLenAux]
  | succ f ih =>
    intro n m hn hm
    by_cases h0 : n = 0
    · simp [bitLenAux, h0]
    · have hm1 : 1 ≤ m := by
        by_contra hc
        push_neg at hc
        interval_cases m
        simp only [pow_zero] at hm
        omega
      have hpow : (2 : Nat) ^ m = 2 * 2 ^ (m - 1) := by
        rw [← pow_succ']
        congr 1
        omega
      have h2 : n / 2 < 2 ^ (m - 1) := by omega
      have hf : n / 2 ≤ f := by omega
      have h3 := ih (n / 2) (m - 1) hf h2
      simp only [bitLenAux]
      rw [if_neg h0]
      omega

theorem lt_two_pow_bitLenAux : ∀ f n, n ≤ f → n < 2 ^ bitLenAux f n := by
  intro f
  induction f with
  | zero =>
    intro n hn
    have h0 : n = 0 := Nat.le_zero.mp hn
    subst h0
    simp [bitLenAux]
  | succ f ih =>
    intro n hn
    by_cases h0 : n = 0
    · subst h0; simp [bitLenAux]
    · have hf : n / 2 ≤ f := by omega
      have h1 := ih (n / 2) hf
      simp only [bitLenAux]
      rw [if_neg h0]
      have h2 : (2 : Nat) ^ (bitLenAux f (n / 2) + 1) = 2 * 2 ^ bitLenAux f (n / 2) := by
        rw [← pow_succ']
      omega

theorem bitLength_le {n m : Nat} (h : n < 2 ^ m) : bitLength n ≤ m :=
  bitLenAux_le n n m le_rfl h

theorem roundHalfEvenDiv8_le (b : Nat) : roundHalfEvenDiv8 b ≤ (b + 7) / 8 := by
  unfold roundHalfEvenDiv8
  split_ifs <;> omega

/-! Claim theorems. -/

/-- C1 (counterexample): the claim says
`read_memory_by_address(0x14, 0x1000, 0x0100)` yields
`"23 14 00 00 10 00 01 00"`; the code actually yields
`"23 20 00 00 10 00 00"` — the format byte is rendered as the unpadded
decimal `20` (missing `:02X`), and the size is rendered at its declared
1-byte width, truncating `0x0100` to the single byte `00`. -/
theorem rmba_claim_counterexample :
    read_memory_by_address 0x14 0x1000 0x0100 = "23 20 00 00 10 00 00"
    ∧ read_memory_by_address 0x14 0x1000 0x0100 ≠ "23 14 00 00 10 00 01 00" := by
  decide

/-- C1 (amended): the low nibble of the format identifier gives the
byte-width of the address field and the high nibble the byte-width of the
size field; the address and size are each rendered as exactly that many
big-endian bytes (zero-padded, value truncated to the declared width);
but the format byte itself is rendered as the unpadded decimal of its low
8 bits, so the example call yields `"23 20 00 00 10 00 00"`. -/
theorem rmba_width_spec (alfi addr size : Nat) :
    read_memory_by_address alfi addr size
      = fmt02X Sid.RMBA ++ " " ++ decRepr (alfi % 256) ++ " "
        ++ String.intercalate " " ((toBytesBE (alfi % 16) addr).map fmt02X) ++ " "
        ++ String.intercalate " " ((toBytesBE (alfi / 16 % 16) size).map fmt02X)
    ∧ (toBytesBE (alfi % 16) addr).length = alfi % 16
    ∧ (toBytesBE (alfi / 16 % 16) size).length = alfi / 16 % 16
    ∧ fromBytesBE (toBytesBE (alfi % 16) addr) = addr % 2 ^ (8 * (alfi % 16))
    ∧ fromBytesBE (toBytesBE (alfi / 16 % 16) size) = size % 2 ^ (8 * (alfi / 16 % 16)) := by
  refine ⟨?_, toBytesBE_length _ _, toBytesBE_length _ _,
    fromBytesBE_toBytesBE _ _, fromBytesBE_toBytesBE _ _⟩
  unfold read_memory_by_address
  rw [pyWidthBytes_eq_toBytesBE, pyWidthBytes_eq_toBytesBE]

/-- C2 (counterexample): the claim says `convert_int_to_str_of_bytes`
never fails on a non-negative integer; on input 1 the code computes
`round(1 / 8) = 0` bytes and `(1).to_bytes(0)` raises `OverflowError`
(modelled as `none`). -/
theorem convert_one_counterexample : convert_int_to_str_of_bytes 1 = none := by
  decide

/-- C2 (amended): whenever `convert_int_to_str_of_bytes` returns, it
returns the fewest bytes needed to represent the value in big-endian
order, each formatted as 2-digit hex; but it is not total — it raises
`OverflowError` whenever the banker's-rounded byte count
`round(bit_length / 8)` falls short of the minimal byte count
`ceil(bit_length / 8)`. -/
theorem convert_some_minimal (v : Nat) (s : String)
    (h : convert_int_to_str_of_bytes v = some s) :
    s = String.intercalate " " ((toBytesBE ((bitLength v + 7) / 8) v).map fmt02X)
    ∧ v < 2 ^ (8 * ((bitLength v + 7) / 8))
    ∧ ∀ j, v < 2 ^ (8 * j) → (bitLength v + 7) / 8 ≤ j := by
  unfold convert_int_to_str_of_bytes at h
  split at h
  case isTrue hlt =>
    have hb : bitLength v ≤ 8 * roundHalfEvenDiv8 (bitLength v) := bitLength_le hlt
    have hk1 : roundHalfEvenDiv8 (bitLength v) ≤ (bitLength v + 7) / 8 :=
      roundHalfEvenDiv8_le (bitLength v)
    have hk : roundHalfEvenDiv8 (bitLength v) = (bitLength v + 7) / 8 := by omega
    refine ⟨?_, ?_, ?_⟩
    · rw [← hk]
      exact (Option.some.inj h).symm
    · rw [← hk]
      exact hlt
    · intro j hj
      have hj2 := bitLength_le hj
      omega
  case isFalse => exact absurd h (by simp)

/-- C2 (witness): `convert_int_to_str_of_bytes 0xF190 = some "F1 90"`,
and the amended theorem applies there. -/
theorem convert_some_minimal_witness :
    convert_int_to_str_of_bytes 0xF190 = some "F1 90"
    ∧ ("F1 90" = String.intercalate " "
          ((toBytesBE ((bitLength 0xF190 + 7) / 8) 0xF190).map fmt02X)
      ∧ 0xF190 < 2 ^ (8 * ((bitLength 0xF190 + 7) / 8))
      ∧ ∀ j, 0xF190 < 2 ^ (8 * j) → (bitLength 0xF190 + 7) / 8 ≤ j) :=
  ⟨by decide, convert_some_minimal 0xF190 "F1 90" (by decide)⟩

/-- C3: the claim that every returned request is made of 2-digit
uppercase hex tokens separated by single spaces fails on the code:
`read_data_by_identifier([0xF190])` returns `"22 F1 144"` (the low byte
is the unpadded decimal token `144`), and
`routine_control(0x20, 0xF190)` with the option record omitted returns
`"31 20 F1 90 "` with a trailing space. -/
theorem token_invariant_violation :
    read_data_by_identifier [0xF190] = "22 F1 144"
    ∧ routine_control 0x20 0xF190 none = some "31 20 F1 90 " := by
  decide

/-- C4: the claim that every well-formed call returns a string fails on
the code: `request_file_transfer(0x20, 0x10, [0x41])` with its optional
parameters omitted raises `TypeError` (the body evaluates
`None & 0xFF`), and `routine_control(1, 0xF190)` raises `OverflowError`
inside `convert_int_to_str_of_bytes`; both are modelled as `none`. -/
theorem optional_omission_fails :
    request_file_transfer 0x20 0x10 [0x41] none none none none = none
    ∧ routine_control 1 0xF190 none = none := by
  decide

/-- C5: the claim that every 1-byte parameter position shows `v & 0xFF`
fails on the code: `diagnostic_session_control` and
`read_data_by_periodic_identifier` format the session type and
transmission mode without the mask, so 0x100 appears as the 3-digit
token `100` instead of `00`. -/
theorem one_byte_param_unmasked :
    diagnostic_session_control 0x100 = "10 100"
    ∧ diagnostic_session_control 0x100 ≠ "10 00"
    ∧ read_data_by_periodic_identifier 0x100 [1] = "2A 100 01" := by
  decide

/-- C6: the claim `read_data_by_identifier([0xF190]) = "22 F1 90"` fails
on the code, which renders the low byte as the unpadded decimal `144`. -/
theorem rdbi_low_byte_decimal :
    read_data_by_identifier [0xF190] = "22 F1 144"
    ∧ read_data_by_identifier [0xF190] ≠ "22 F1 90" := by
  decide

/-- C7: the claim
`communication_control(0x00, 0x01, node_identification_number=0x0102) =
"28 00 01 01 02"` fails on the code, which renders the low byte of the
node identification number as the unpadded decimal `2`; the form without
the optional parameter matches the claim. -/
theorem cc_low_byte_decimal :
    communication_control 0 1 (some 0x0102) = "28 00 01 01 2"
    ∧ communication_control 0 1 (some 0x0102) ≠ "28 00 01 01 02"
    ∧ communication_control 0 1 none = "28 00 01" := by
  decide

/-- C8: the claim that definition type 2 encodes every well-formed tuple
list fails on the code: the source rebinds
`address_and_length_format_identifier` to a formatted string and then
evaluates `address_and_length_format_identifier & 0xF`, raising
`TypeError` on the very first tuple (modelled as `none`); only the empty
list survives. -/
theorem dddi_type2_fails :
    dynamically_define_data_identifier 2 (.records [(0xF301, 0x14, 0x1000, 0x01)]) = none
    ∧ dynamically_define_data_identifier 2 (.records []) = some ("2C 02", []) := by
  decide

/-- C9: for any definition type outside {1, 2, 3},
`dynamically_define_data_identifier` prints the invalid-type diagnostic,
does not raise, and returns just the SID byte and the discriminant. -/
theorem dddi_invalid_type (t : Nat) (p : SupportingParams)
    (h1 : t ≠ 1) (h2 : t ≠ 2) (h3 : t ≠ 3) :
    dynamically_define_data_identifier t p =
      some (fmt02X Sid.DDDI ++ " " ++ fmt02X t,
        ["invalid definition_type " ++ decRepr t
          ++ ". possible values -> 0 to 3. request sent without supporting_params"]) := by
  simp only [dynamically_define_data_identifier, if_neg h1, if_neg h2, if_neg h3]

/-- C9 (witness): the invalid-type fallback at definition type 5. -/
theorem dddi_invalid_type_witness :
    dynamically_define_data_identifier 5 (SupportingParams.single 0) =
      some ("2C 05",
        ["invalid definition_type 5. possible values -> 0 to 3. request sent without supporting_params"]) :=
  (dddi_invalid_type 5 (SupportingParams.single 0) (by decide) (by decide)
    (by decide)).trans (by decide)

/-- C10: `request_transfer_exit` with no record returns the single SID
byte `"37"`; with a record the source emits the TransferData SID 0x36
instead of 0x37, followed by the masked record bytes. -/
theorem rte_sid_swap :
    request_transfer_exit none = "37"
    ∧ Sid.RTE = 0x37 ∧ Sid.TD = 0x36
    ∧ ∀ l, request_transfer_exit (some l) = "36 " ++ renderList l := by
  refine ⟨by decide, rfl, rfl, fun l => ?_⟩
  show fmt02X Sid.TD ++ " " ++ renderList l = "36 " ++ renderList l
  exact congrArg (fun x => x ++ renderList l) (by decide)

end PyUds
